import Mathlib

set_option maxRecDepth 8000

/-!
Verification of the wandern-arweave-uploader batch pipeline (src/main.py).

The Python source is shallowly embedded as pure Lean functions.  External
effects (the moderation agent HTTP call, the 4EVERLAND S3 backend, the
per-record database updates) are modelled by per-record outcome oracles,
and the observable interactions of the controller (moderation request sent,
storage put performed, database update committed) are recorded in an event
trace so that properties such as "the storage upload step is never reached"
can be stated about the code rather than about a paraphrase of it.
-/

namespace Wandern

/-- Primitive Python/JSON value, used for the fields of the moderation
agent's decoded JSON response (Python is dynamically typed, so the value
bound to a key such as is_safe can be of any shape). -/
inductive PyPrim where
  | none
  | bool (b : Bool)
  | int (n : Int)
  | str (s : String)
deriving DecidableEq

/-- Python truthiness of a primitive value, as used by
`if not mod_result.get("is_safe", False)` in src/main.py line 280. -/
def truthyPrim : PyPrim → Bool
  | PyPrim.none => false
  | PyPrim.bool b => b
  | PyPrim.int n => n != 0
  | PyPrim.str s => s != ""

/-- A decoded JSON document as returned by response.json(): a JSON object
(Python dict), or a non-object JSON value (primitive or array).  Values are
flattened to primitives, which covers every shape the controller inspects. -/
inductive PyJson where
  | prim (v : PyPrim)
  | dict (entries : List (String × PyPrim))
  | list (items : List PyPrim)
deriving DecidableEq

/-- Python dict lookup d[k] returning an optional value (first binding wins). -/
def dictGet (d : List (String × PyPrim)) (k : String) : Option PyPrim :=
  (d.find? (fun e => e.1 == k)).map (fun e => e.2)

/-- Python d.get(k, dflt): the bound value when the key is present, the
default otherwise. -/
def pyGetD (d : List (String × PyPrim)) (k : String) (dflt : PyPrim) : PyPrim :=
  (dictGet d k).getD dflt

/-- Outcome oracle for one invocation of the moderation agent HTTP call in
call_moderation_agent (src/main.py lines 65-74): either response.json()
yields a decoded JSON document, or some exception is raised (transport
failure, timeout, non-JSON body). -/
inductive ModCallOutcome where
  | jsonOk (v : PyJson)
  | raise (msg : String)
deriving DecidableEq

/-- Embedding of call_moderation_agent (src/main.py lines 58-82): the decoded
response is returned as-is; any exception is caught and replaced by the
fail-closed verdict dict with is_safe=False, moderation_status="error". -/
def call_moderation_agent : ModCallOutcome → PyJson
  | ModCallOutcome.jsonOk v => v
  | ModCallOutcome.raise msg =>
      PyJson.dict [("is_safe", PyPrim.bool false),
                   ("moderation_status", PyPrim.str "error"),
                   ("flag_reason", PyPrim.str ("Moderation check failed: " ++ msg))]

/-- The normalized upload envelope built at src/main.py lines 296-306.  The
structure has exactly the nine fields the code writes. -/
structure ArweaveData where
  type : String
  app : String
  version : String
  title : Option String
  content : Option String
  content_type : Option String
  created_at : Option String
  user_id_hash : String
  moderation : String
deriving DecidableEq

/-- The synthetic record built in test mode (src/main.py lines 205-210). -/
structure MockEcho where
  echo_id : String
  content : String
  location : String
  created_at : String
deriving DecidableEq

/-- Pure abstractions of the library functions the code calls: JSON
serialization (json.dumps), SHA-256 hex digest (hashlib.sha256(...).hexdigest()),
the builtin salted string hash (hash), datetime isoformat, and the clock. -/
structure Ext where
  sha256hex : String → String
  jsonEncode : ArweaveData → String
  jsonEncodeMock : MockEcho → String
  pyHash : String → Int
  isoformat : Nat → String
  nowIso : String
  now : Nat

/-- Storage configuration: only FOUREVERLAND_SECRET_KEY is observable in the
function's result (src/main.py lines 106-113). -/
structure StorageEnv where
  secretKey : Option String
deriving DecidableEq

/-- Outcome oracle for one S3 put_object/head_object interaction: either the
backend round-trip succeeds yielding the cid string computed at line 147
(metadata ipfs-hash, or the stripped ETag, or the empty string), or some
exception is raised somewhere in the try block. -/
inductive S3Outcome where
  | ok (cid : String)
  | raise (msg : String)
deriving DecidableEq

/-- Python str.startswith on the characters of the strings. -/
def pyStartsWith (s pre : String) : Bool :=
  pre.data.isPrefixOf s.data

/-- Embedding of upload_to_permanent_storage (src/main.py lines 85-167),
keyed on the payload bytes produced by json.dumps.  When the secret key is
unset, or when the S3 interaction raises, the function returns the
content-hash fallback pseudo-identifier instead of failing. -/
def upload_to_permanent_storage (ext : Ext) (env : StorageEnv) (s3 : S3Outcome)
    (payloadJson : String) : String :=
  match env.secretKey with
  | Option.none => "ipfs_pending_" ++ (ext.sha256hex payloadJson).take 32
  | Option.some _ =>
    match s3 with
    | S3Outcome.ok cid =>
        if pyStartsWith cid "Qm" || pyStartsWith cid "bafy" then cid
        else "4ever_" ++ (ext.sha256hex payloadJson).take 32
    | S3Outcome.raise _ => "ipfs_pending_" ++ (ext.sha256hex payloadJson).take 32

/-- A row of the geo_echoes table, restricted to the columns the pipeline
reads and writes (src/main.py lines 234-248 and the two UPDATE statements). -/
structure EchoRecord where
  echo_id : String
  creator_user_id : String
  content : Option String
  title : Option String
  content_type : Option String
  media_url : Option String
  created_at : Option Nat
  is_permanent : Bool
  is_active : Bool
  echo_type : String
  arweave_tx_id : Option String
  arweave_uploaded_at : Option Nat
  moderation_status : Option String
  moderation_reason : Option PyPrim
deriving DecidableEq

/-- Python `a or b` specialised to an optional string on the left: the left
string when present and non-empty (truthy), the right operand otherwise. -/
def pyOrStr (o : Option String) (d : String) : String :=
  match o with
  | Option.some s => if s == "" then d else s
  | Option.none => d

/-- The JSON body sent to the moderation agent (src/main.py lines 67-71). -/
structure ModRequest where
  content : String
  content_type : String
  media_url : Option String
deriving DecidableEq

/-- The moderation request built at src/main.py lines 267-271:
content=content or title or "", content_type=content_type or "text". -/
def buildModRequest (rec : EchoRecord) : ModRequest :=
  { content := pyOrStr rec.content (pyOrStr rec.title ""),
    content_type := pyOrStr rec.content_type "text",
    media_url := rec.media_url }

/-- One tag dict {"name": ..., "value": ...} (src/main.py lines 308-313). -/
structure Tag where
  name : String
  value : String
deriving DecidableEq

/-- The tag list passed to the storage client (src/main.py lines 308-313). -/
def uploadTags : List Tag :=
  [{ name := "App-Name", value := "Wandern" },
   { name := "Content-Type", value := "application/json" },
   { name := "Type", value := "geo-echo" },
   { name := "Moderation-Status", value := "approved" }]

/-- The arweave_data envelope built at src/main.py lines 296-306. -/
def buildArweaveData (ext : Ext) (rec : EchoRecord) : ArweaveData :=
  { type := "geo-echo",
    app := "wandern",
    version := "1.0",
    title := rec.title,
    content := rec.content,
    content_type := rec.content_type,
    created_at := rec.created_at.map ext.isoformat,
    user_id_hash := toString (ext.pyHash rec.creator_user_id),
    moderation := "approved" }

/-- The committed effect of the flagging UPDATE (src/main.py lines 283-291):
moderation_status='flagged', moderation_reason=reason, is_permanent=FALSE. -/
def markFlagged (rec : EchoRecord) (reason : PyPrim) : EchoRecord :=
  { rec with moderation_status := Option.some "flagged",
             moderation_reason := Option.some reason,
             is_permanent := false }

/-- The committed effect of the upload UPDATE (src/main.py lines 319-327):
arweave_tx_id=tx, arweave_uploaded_at=NOW(), moderation_status='approved'. -/
def markUploaded (ext : Ext) (rec : EchoRecord) (tx : String) : EchoRecord :=
  { rec with arweave_tx_id := Option.some tx,
             arweave_uploaded_at := Option.some ext.now,
             moderation_status := Option.some "approved" }

/-- Observable external interactions of the per-record loop body, in
program order: the moderation request sent, the storage put performed, and
each committed database update. -/
inductive Event where
  | modCall (req : ModRequest)
  | putCall (payload : ArweaveData) (tags : List Tag)
  | dbFlag (echo_id : String) (reason : PyPrim)
  | dbUpload (echo_id : String) (tx : String)
deriving DecidableEq

/-- Per-record outcome oracle for the external calls made while processing
one record: the moderation HTTP call, the S3 interaction, and whether each
of the two UPDATE ... commit sequences succeeds (False models a raised
database exception, leaving the record unchanged). -/
structure RecordOracle where
  mod : ModCallOutcome
  s3 : S3Outcome
  dbFlagOk : Bool
  dbUploadOk : Bool
deriving DecidableEq

/-- The three request flags parsed at src/main.py lines 199-201. -/
structure Config where
  priority_only : Bool
  test_mode : Bool
  skip_moderation : Bool
deriving DecidableEq

/-- Ambient environment: library-function abstractions and storage config. -/
structure Env where
  ext : Ext
  storage : StorageEnv

/-- How one record ended this run: counted as uploaded (with its tx id),
flagged, or failed. -/
inductive RecOutcome where
  | uploaded (tx : String)
  | flagged
  | failed
deriving DecidableEq

/-- Result of processing one record: its outcome for the counters, the
record's (possibly updated) stored state, and the event trace. -/
structure ProcResult where
  outcome : RecOutcome
  record : EchoRecord
  events : List Event
deriving DecidableEq

/-- The approved path of the loop body (src/main.py lines 295-331): build
the envelope, call the storage client, then attempt the upload UPDATE.  The
storage call itself never raises; only a database failure can make this
path fail, and in that case the put has still happened. -/
def uploadStep (env : Env) (rec : EchoRecord) (orc : RecordOracle)
    (pre : List Event) : ProcResult :=
  let payload := buildArweaveData env.ext rec
  let tx := upload_to_permanent_storage env.ext env.storage orc.s3 (env.ext.jsonEncode payload)
  if orc.dbUploadOk then
    { outcome := RecOutcome.uploaded tx,
      record := markUploaded env.ext rec tx,
      events := pre ++ [Event.putCall payload uploadTags, Event.dbUpload rec.echo_id tx] }
  else
    { outcome := RecOutcome.failed, record := rec,
      events := pre ++ [Event.putCall payload uploadTags] }

/-- Embedding of the body of the per-record loop (src/main.py lines 259-335).
When moderation is not skipped, the moderation agent is called; if the
decoded result is not a dict, the controller's mod_result.get raises and
the record is counted failed with no state change.  A dict whose is_safe
lookup (defaulting to False) is falsy takes the flagging path; otherwise
the approved upload path runs. -/
def processEcho (env : Env) (cfg : Config) (rec : EchoRecord) (orc : RecordOracle) : ProcResult :=
  if cfg.skip_moderation then uploadStep env rec orc []
  else
    let req := buildModRequest rec
    match call_moderation_agent orc.mod with
    | PyJson.dict d =>
      if truthyPrim (pyGetD d "is_safe" (PyPrim.bool false)) then
        uploadStep env rec orc [Event.modCall req]
      else
        if orc.dbFlagOk then
          { outcome := RecOutcome.flagged,
            record := markFlagged rec (pyGetD d "flag_reason" (PyPrim.str "Pre-Arweave check failed")),
            events := [Event.modCall req,
                       Event.dbFlag rec.echo_id
                         (pyGetD d "flag_reason" (PyPrim.str "Pre-Arweave check failed"))] }
        else
          { outcome := RecOutcome.failed, record := rec, events := [Event.modCall req] }
    | PyJson.prim _ => { outcome := RecOutcome.failed, record := rec, events := [Event.modCall req] }
    | PyJson.list _ => { outcome := RecOutcome.failed, record := rec, events := [Event.modCall req] }

/-- Run-level counters and identifier list (src/main.py lines 250-257). -/
structure RunResults where
  processed : Nat
  uploaded : Nat
  failed : Nat
  flagged : Nat
  tx_ids : List String
deriving DecidableEq

/-- The initial results dict (src/main.py lines 250-257). -/
def emptyResults : RunResults :=
  { processed := 0, uploaded := 0, failed := 0, flagged := 0, tx_ids := [] }

/-- Account one record's outcome into the counters accumulated for the
records after it: processed always increments, and exactly one of
uploaded/flagged/failed increments (src/main.py lines 261, 292, 329, 335). -/
def consTally (out : RecOutcome) (res : RunResults) : RunResults :=
  match out with
  | RecOutcome.uploaded tx =>
      { res with processed := res.processed + 1, uploaded := res.uploaded + 1,
                 tx_ids := tx :: res.tx_ids }
  | RecOutcome.flagged =>
      { res with processed := res.processed + 1, flagged := res.flagged + 1 }
  | RecOutcome.failed =>
      { res with processed := res.processed + 1, failed := res.failed + 1 }

/-- The per-record loop (src/main.py lines 259-335) over a batch paired with
its per-record oracles: every record is processed, unconditionally. -/
def processEchoes (env : Env) (cfg : Config) :
    List (EchoRecord × RecordOracle) → RunResults × List ProcResult
  | [] => (emptyResults, [])
  | (r, o) :: rest =>
    let pr := processEcho env cfg r o
    let rec2 := processEchoes env cfg rest
    (consTally pr.outcome rec2.1, pr :: rec2.2)

/-- Ascending comparison on the created_at column with SQL NULLS LAST
(PostgreSQL default for ORDER BY created_at ASC). -/
def caLe (a b : Option Nat) : Bool :=
  match a, b with
  | _, Option.none => true
  | Option.none, Option.some _ => false
  | Option.some x, Option.some y => decide (x ≤ y)

/-- The stable part of the selection predicate (src/main.py lines 237-239):
is_permanent = TRUE AND arweave_tx_id IS NULL AND is_active = TRUE. -/
def selPredBase (r : EchoRecord) : Bool :=
  r.is_permanent && r.arweave_tx_id.isNone && r.is_active

/-- The full WHERE clause including the priority filter
(src/main.py lines 237-243). -/
def selPred (priority_only : Bool) (r : EchoRecord) : Bool :=
  selPredBase r && (!priority_only || r.echo_type == "admin")

/-- Ordering relation on rows induced by ORDER BY created_at ASC. -/
def createdLe (a b : EchoRecord) : Prop :=
  caLe a.created_at b.created_at = true

instance : DecidableRel createdLe := fun a b => by
  unfold createdLe; infer_instance

instance : IsTotal EchoRecord createdLe where
  total a b := by
    unfold createdLe caLe
    rcases a.created_at with _ | x <;> rcases b.created_at with _ | y <;> simp
    exact Nat.le_total x y

instance : IsTrans EchoRecord createdLe where
  trans a b c hab hbc := by
    unfold createdLe caLe at hab hbc ⊢
    rcases ha : a.created_at with _ | x <;> rcases hb : b.created_at with _ | y <;>
      rcases hc : c.created_at with _ | z <;> simp_all
    all_goals omega

/-- Embedding of the candidate query (src/main.py lines 234-248): filter by
the WHERE clause, sort ascending by created_at, cap at LIMIT 50. -/
def selectCandidates (db : List EchoRecord) (priority_only : Bool) : List EchoRecord :=
  (List.insertionSort createdLe (db.filter (selPred priority_only))).take 50

/-- The mock echo dict of test mode (src/main.py lines 205-210). -/
def mock_echo (nowIso : String) : MockEcho :=
  { echo_id := "test_echo_001",
    content := "Test Geo Echo for Arweave upload",
    location := "40.7128,-74.0060",
    created_at := nowIso }

/-- Embedding of the upload_batch handler (src/main.py lines 198-340),
excluding the CORS shim and the database-connection-failure 500 response.
In test mode the database is never consulted; otherwise the candidate query
runs and every candidate is processed in order, each with its own oracle. -/
def upload_batch (env : Env) (cfg : Config) (orcs : Nat → RecordOracle)
    (db : List EchoRecord) : RunResults :=
  if cfg.test_mode then
    let tx := upload_to_permanent_storage env.ext env.storage (orcs 0).s3
                (env.ext.jsonEncodeMock (mock_echo env.ext.nowIso))
    { processed := 1, uploaded := 1, failed := 0, flagged := 0, tx_ids := [tx] }
  else
    let cands := selectCandidates db cfg.priority_only
    (processEchoes env cfg (cands.zip ((List.range cands.length).map orcs))).1

/-- Whether an event is the storage put. -/
def isPut : Event → Bool
  | Event.putCall _ _ => true
  | _ => false

/-- Whether the trace reaches the storage upload step. -/
def hasPut (evs : List Event) : Bool := evs.any isPut

/-- Whether an event is one of the two terminal database updates. -/
def isDbWrite : Event → Bool
  | Event.dbFlag _ _ => true
  | Event.dbUpload _ _ => true
  | _ => false

/-- The committed terminal database updates in a trace. -/
def dbWrites (evs : List Event) : List Event := evs.filter isDbWrite

/-- The first moderation request sent in a trace, if any. -/
def firstModReq (evs : List Event) : Option ModRequest :=
  evs.findSome? (fun e => match e with
    | Event.modCall r => Option.some r
    | _ => Option.none)

/-- Classification of a record outcome by which counter it feeds. -/
inductive OutKind where
  | up
  | flag
  | fail
deriving DecidableEq

/-- The counter a record outcome feeds. -/
def outKind : RecOutcome → OutKind
  | RecOutcome.uploaded _ => OutKind.up
  | RecOutcome.flagged => OutKind.flag
  | RecOutcome.failed => OutKind.fail

/-- Stated from the spec's words for claim C1: the moderation verdict is
unavailable (the call failed, the response is not a JSON object, or the
is_safe field is absent or not a boolean) or indicates unsafe (is_safe is
the boolean false). -/
def specVerdictUnavailableOrUnsafe (m : ModCallOutcome) : Bool :=
  match m with
  | ModCallOutcome.raise _ => true
  | ModCallOutcome.jsonOk (PyJson.dict d) =>
    match dictGet d "is_safe" with
    | Option.none => true
    | Option.some (PyPrim.bool b) => !b
    | Option.some _ => true
  | ModCallOutcome.jsonOk _ => true

/-- The effective verdict makes the controller take the flagging path: the
result of call_moderation_agent is a dict whose is_safe lookup (defaulting
to False) is falsy.  This covers every raised exception, since the
fail-closed dict has is_safe=False. -/
def gateRejects (m : ModCallOutcome) : Bool :=
  match call_moderation_agent m with
  | PyJson.dict d => !truthyPrim (pyGetD d "is_safe" (PyPrim.bool false))
  | _ => false

/-- The effective verdict makes the controller raise at mod_result.get:
the decoded response is valid JSON but not an object. -/
def gateRaises (m : ModCallOutcome) : Bool :=
  match call_moderation_agent m with
  | PyJson.dict _ => false
  | _ => true

/-- A flagged record no longer satisfies the stable selection predicate. -/
theorem selPredBase_markFlagged (r : EchoRecord) (reason : PyPrim) :
    selPredBase (markFlagged r reason) = false := by
  simp [selPredBase, markFlagged]

/-- An uploaded record no longer satisfies the stable selection predicate. -/
theorem selPredBase_markUploaded (ext : Ext) (r : EchoRecord) (tx : String) :
    selPredBase (markUploaded ext r tx) = false := by
  simp [selPredBase, markUploaded]

/-- Every selected candidate satisfies the WHERE clause. -/
theorem selPred_of_mem_selectCandidates {r : EchoRecord} {db : List EchoRecord} {p : Bool}
    (h : r ∈ selectCandidates db p) : selPred p r = true := by
  unfold selectCandidates at h
  have h2 := List.take_subset 50 _ h
  rw [List.mem_insertionSort] at h2
  exact (List.mem_filter.mp h2).2

/-- A record that fails the stable predicate is never selected. -/
theorem not_mem_selectCandidates {r : EchoRecord} (db : List EchoRecord) (p : Bool)
    (h : selPredBase r = false) : r ∉ selectCandidates db p := by
  intro hm
  have h1 := selPred_of_mem_selectCandidates hm
  rw [selPred, h] at h1
  simp at h1

/-- Concrete instantiation of the library-function abstractions, used to
evaluate the model on closed inputs. -/
def exExt : Ext :=
  { sha256hex := fun _ => "0123456789abcdef0123456789abcdef",
    jsonEncode := fun _ => "{}",
    jsonEncodeMock := fun _ => "{}",
    pyHash := fun _ => 42,
    isoformat := fun _ => "1970-01-01T00:00:00",
    nowIso := "2024-01-01T00:00:00",
    now := 7 }

/-- Environment with the storage secret key configured. -/
def exEnv : Env := { ext := exExt, storage := { secretKey := Option.some "sk" } }

/-- Environment with FOUREVERLAND_SECRET_KEY unset. -/
def exEnvNoKey : Env := { ext := exExt, storage := { secretKey := Option.none } }

/-- Default request flags: production mode, moderation enabled. -/
def exCfg : Config := { priority_only := false, test_mode := false, skip_moderation := false }

/-- A pending candidate record. -/
def exRec : EchoRecord :=
  { echo_id := "e1", creator_user_id := "u1",
    content := Option.some "Hello", title := Option.none,
    content_type := Option.some "text", media_url := Option.none,
    created_at := Option.some 5,
    is_permanent := true, is_active := true, echo_type := "admin",
    arweave_tx_id := Option.none, arweave_uploaded_at := Option.none,
    moderation_status := Option.none, moderation_reason := Option.none }

/-- A second pending candidate record, older and not priority. -/
def exRec2 : EchoRecord :=
  { exRec with echo_id := "e2", created_at := Option.some 3, echo_type := "user" }

/-- An oracle whose moderation call returns an approving verdict and whose
storage and database interactions succeed. -/
def exOrcOk : RecordOracle :=
  { mod := ModCallOutcome.jsonOk (PyJson.dict [("is_safe", PyPrim.bool true)]),
    s3 := S3Outcome.ok "QmX", dbFlagOk := true, dbUploadOk := true }

/-- Structural enumeration of the per-record loop body: the trace contains
at most one committed terminal database update, and whenever one was
committed the resulting record state fails the stable selection predicate. -/
theorem processEcho_dbWrites (env : Env) (cfg : Config) (rec : EchoRecord) (orc : RecordOracle) :
    (dbWrites (processEcho env cfg rec orc).events).length ≤ 1 ∧
    (dbWrites (processEcho env cfg rec orc).events ≠ [] →
      selPredBase (processEcho env cfg rec orc).record = false) := by
  unfold processEcho uploadStep
  by_cases hsm : cfg.skip_moderation
  · by_cases hdu : orc.dbUploadOk <;>
      simp [hsm, hdu, dbWrites, isDbWrite, selPredBase_markUploaded]
  · rcases hm : call_moderation_agent orc.mod with v | d | l
    · simp [hsm, hm, dbWrites, isDbWrite]
    · by_cases ht : truthyPrim (pyGetD d "is_safe" (PyPrim.bool false)) = true
      · by_cases hdu : orc.dbUploadOk <;>
          simp [hsm, hm, ht, hdu, dbWrites, isDbWrite, selPredBase_markUploaded]
      · by_cases hdf : orc.dbFlagOk <;>
          simp [hsm, hm, ht, hdf, dbWrites, isDbWrite, selPredBase_markFlagged]
    · simp [hsm, hm, dbWrites, isDbWrite]

/-- C3: exactly-once terminal transition.  For every record processed in a
run, at most one of the two terminal-state updates (the flagging UPDATE and
the upload UPDATE) is committed; once one is committed the record's state
no longer satisfies the stable selection predicate (is_permanent = true
with arweave_tx_id null and is_active = true), so the record is absent from
the candidate selection of every future run, over any database contents and
either priority setting. -/
theorem C3_exactly_once_transition (env : Env) (cfg : Config) (rec : EchoRecord)
    (orc : RecordOracle) :
    (dbWrites (processEcho env cfg rec orc).events).length ≤ 1 ∧
    (dbWrites (processEcho env cfg rec orc).events ≠ [] →
      selPredBase (processEcho env cfg rec orc).record = false ∧
      ∀ (db : List EchoRecord) (p : Bool),
        (processEcho env cfg rec orc).record ∉ selectCandidates db p) := by
  refine ⟨(processEcho_dbWrites env cfg rec orc).1, fun hne => ?_⟩
  have hbase := (processEcho_dbWrites env cfg rec orc).2 hne
  exact ⟨hbase, fun db p => not_mem_selectCandidates db p hbase⟩

/-- Witness for C3 at a concrete flagged record: the moderation verdict is
unsafe, exactly one update is committed, and the resulting record is
excluded from a subsequent selection over a concrete database. -/
theorem C3_exactly_once_transition_witness :
    (dbWrites (processEcho exEnv exCfg exRec
        { mod := ModCallOutcome.jsonOk (PyJson.dict [("is_safe", PyPrim.bool false)]),
          s3 := S3Outcome.ok "QmX", dbFlagOk := true, dbUploadOk := true }).events).length ≤ 1 ∧
    (processEcho exEnv exCfg exRec
        { mod := ModCallOutcome.jsonOk (PyJson.dict [("is_safe", PyPrim.bool false)]),
          s3 := S3Outcome.ok "QmX", dbFlagOk := true, dbUploadOk := true }).record ∉
      selectCandidates [exRec2] false := by
  refine ⟨(C3_exactly_once_transition exEnv exCfg exRec _).1, ?_⟩
  exact ((C3_exactly_once_transition exEnv exCfg exRec _).2 (by decide)).2 [exRec2] false

/-- C4: per-record isolation and count reconciliation.  For every batch and
every assignment of per-record external outcomes (including failing
moderation calls, failing storage backends and failing database updates),
every record of the batch is processed (processed equals the batch length),
the counters reconcile as processed = uploaded + flagged + failed, and the
identifier list has exactly one entry per uploaded record. -/
theorem C4_isolation_and_counts (env : Env) (cfg : Config)
    (l : List (EchoRecord × RecordOracle)) :
    (processEchoes env cfg l).1.processed = l.length ∧
    (processEchoes env cfg l).1.processed =
      (processEchoes env cfg l).1.uploaded + (processEchoes env cfg l).1.flagged +
        (processEchoes env cfg l).1.failed ∧
    (processEchoes env cfg l).1.tx_ids.length = (processEchoes env cfg l).1.uploaded := by
  induction l with
  | nil => simp [processEchoes, emptyResults]
  | cons hd tl ih =>
    rcases hd with ⟨r, o⟩
    rcases houtcome : (processEcho env cfg r o).outcome with tx | _ | _ <;>
      simp [processEchoes, consTally, houtcome, ih.1, ih.2.1, ih.2.2] <;> omega

/-- C5: candidate selection.  Every selected record satisfies
is_permanent = true, arweave_tx_id null, is_active = true (and belongs to
the priority subset when priority_only is set); at most 50 records are
selected; the selection is ascending in created_at; and when no more than
50 records match, the selection is exactly the set of matching records. -/
theorem C5_candidate_selection (db : List EchoRecord) (p : Bool) :
    (∀ r ∈ selectCandidates db p, selPredBase r = true ∧ (p = true → r.echo_type = "admin")) ∧
    (selectCandidates db p).length ≤ 50 ∧
    List.Sorted createdLe (selectCandidates db p) ∧
    ((db.filter (selPred p)).length ≤ 50 →
      ∀ r : EchoRecord, r ∈ selectCandidates db p ↔ (selPred p r = true ∧ r ∈ db)) := by
  refine ⟨?_, ?_, ?_, ?_⟩
  · intro r hr
    have h := selPred_of_mem_selectCandidates hr
    rw [selPred, Bool.and_eq_true] at h
    refine ⟨h.1, fun hp => ?_⟩
    have h2 := h.2
    rw [hp] at h2
    simpa using h2
  · exact List.length_take_le 50 _
  · exact List.Pairwise.sublist (List.take_sublist 50 _) (List.sorted_insertionSort createdLe _)
  · intro hlen r
    unfold selectCandidates
    have hperm := List.perm_insertionSort createdLe (db.filter (selPred p))
    have hl : (List.insertionSort createdLe (db.filter (selPred p))).length ≤ 50 := by
      rw [hperm.length_eq]; exact hlen
    rw [List.take_of_length_le hl, List.mem_insertionSort, List.mem_filter]
    exact ⟨fun h => ⟨h.2, h.1⟩, fun h => ⟨h.2, h.1⟩⟩

/-- Witness for C5 on a concrete two-record database: the selected record
satisfies the predicate, and membership coincides with the WHERE clause. -/
theorem C5_candidate_selection_witness :
    (selPredBase exRec = true ∧ (false = true → exRec.echo_type = "admin")) ∧
    (exRec ∈ selectCandidates [exRec, exRec2] false ↔
      (selPred false exRec = true ∧ exRec ∈ [exRec, exRec2])) := by
  constructor
  · exact (C5_candidate_selection [exRec, exRec2] false).1 exRec (by decide)
  · exact (C5_candidate_selection [exRec, exRec2] false).2.2.2 (by decide) exRec

/-- C1 (amended): fail-closed moderation gate as the code implements it.
When moderation is not bypassed: (a) any exception of the moderation call
yields the verdict dict is_safe=false, moderation_status="error" with the
failure detail, never implicit approval; (b) for every record whose
effective verdict is a JSON object in which is_safe is absent or falsy
(which covers all call failures and explicit unsafe verdicts), the storage
upload step is never reached, arweave_tx_id remains null, and is_permanent
becomes false provided the flagging update commits; (c) if the decoded
response is valid JSON but not an object, the upload step is still never
reached and the record is left completely unchanged (so arweave_tx_id stays
null but is_permanent is not reset). -/
theorem C1_fail_closed_amended (env : Env) (cfg : Config) (rec : EchoRecord)
    (orc : RecordOracle)
    (hskip : cfg.skip_moderation = false) (htx : rec.arweave_tx_id = Option.none) :
    (∀ msg, orc.mod = ModCallOutcome.raise msg →
      call_moderation_agent orc.mod =
        PyJson.dict [("is_safe", PyPrim.bool false),
                     ("moderation_status", PyPrim.str "error"),
                     ("flag_reason", PyPrim.str ("Moderation check failed: " ++ msg))]) ∧
    (gateRejects orc.mod = true →
      hasPut (processEcho env cfg rec orc).events = false ∧
      (processEcho env cfg rec orc).record.arweave_tx_id = Option.none ∧
      (orc.dbFlagOk = true → (processEcho env cfg rec orc).record.is_permanent = false)) ∧
    (gateRaises orc.mod = true →
      hasPut (processEcho env cfg rec orc).events = false ∧
      (processEcho env cfg rec orc).record = rec) := by
  refine ⟨fun msg hmsg => by rw [hmsg]; rfl, ?_, ?_⟩
  · intro hrej
    unfold gateRejects at hrej
    unfold processEcho
    rcases hm : call_moderation_agent orc.mod with v | d | l
    · rw [hm] at hrej; simp at hrej
    · rw [hm] at hrej
      have ht : truthyPrim (pyGetD d "is_safe" (PyPrim.bool false)) = false := by
        simpa using hrej
      by_cases hdf : orc.dbFlagOk <;>
        simp [hskip, hm, ht, hdf, hasPut, isPut, markFlagged, htx]
    · rw [hm] at hrej; simp at hrej
  · intro hrai
    unfold gateRaises at hrai
    unfold processEcho
    rcases hm : call_moderation_agent orc.mod with v | d | l
    · simp [hskip, hm, hasPut, isPut]
    · rw [hm] at hrai; simp at hrai
    · simp [hskip, hm, hasPut, isPut]

/-- Witness for the amended C1 at a concrete timed-out moderation call: the
fail-closed verdict is produced, no storage put occurs, and the record's
is_permanent is reset to false. -/
theorem C1_fail_closed_amended_witness :
    call_moderation_agent (ModCallOutcome.raise "timeout") =
      PyJson.dict [("is_safe", PyPrim.bool false),
                   ("moderation_status", PyPrim.str "error"),
                   ("flag_reason", PyPrim.str ("Moderation check failed: " ++ "timeout"))] ∧
    hasPut (processEcho exEnv exCfg exRec
        { mod := ModCallOutcome.raise "timeout", s3 := S3Outcome.ok "QmX",
          dbFlagOk := true, dbUploadOk := true }).events = false ∧
    (processEcho exEnv exCfg exRec
        { mod := ModCallOutcome.raise "timeout", s3 := S3Outcome.ok "QmX",
          dbFlagOk := true, dbUploadOk := true }).record.is_permanent = false := by
  have h := C1_fail_closed_amended exEnv exCfg exRec
    { mod := ModCallOutcome.raise "timeout", s3 := S3Outcome.ok "QmX",
      dbFlagOk := true, dbUploadOk := true } rfl rfl
  exact ⟨h.1 "timeout" rfl, (h.2.1 (by decide)).1, (h.2.1 (by decide)).2.2 rfl⟩

/-- Counterexample to C1 as stated.  First input: the moderation response is
valid JSON but not an object (a malformed response, so the verdict is
unavailable), yet the record's is_permanent remains true instead of being
set to false via the flagging update (the record is counted failed).
Second input: the response is an object whose is_safe is the string
"false" rather than a boolean (a malformed verdict), yet the storage
upload step IS reached and arweave_tx_id is set, because Python truthiness
treats any non-empty string as approval. -/
theorem C1_fail_closed_counterexample :
    specVerdictUnavailableOrUnsafe (ModCallOutcome.jsonOk (PyJson.prim (PyPrim.str "ok"))) = true ∧
    (processEcho exEnv exCfg exRec
        { mod := ModCallOutcome.jsonOk (PyJson.prim (PyPrim.str "ok")),
          s3 := S3Outcome.ok "QmX", dbFlagOk := true, dbUploadOk := true }).record.is_permanent
      = true ∧
    specVerdictUnavailableOrUnsafe
        (ModCallOutcome.jsonOk (PyJson.dict [("is_safe", PyPrim.str "false")])) = true ∧
    hasPut (processEcho exEnv exCfg exRec
        { mod := ModCallOutcome.jsonOk (PyJson.dict [("is_safe", PyPrim.str "false")]),
          s3 := S3Outcome.ok "QmX", dbFlagOk := true, dbUploadOk := true }).events = true ∧
    (processEcho exEnv exCfg exRec
        { mod := ModCallOutcome.jsonOk (PyJson.dict [("is_safe", PyPrim.str "false")]),
          s3 := S3Outcome.ok "QmX", dbFlagOk := true, dbUploadOk := true }).record.arweave_tx_id
      = Option.some "QmX" := by
  decide

/-- C2 evaluation at the failing inputs.  With FOUREVERLAND_SECRET_KEY unset
(first three conjuncts) the storage client silently returns the
content-hash pseudo-identifier, the controller counts the record as
uploaded (not failed) and commits arweave_tx_id and
moderation_status='approved'; with the key set but the S3 backend raising
(last conjunct) the same pseudo-identifier is returned and committed. -/
theorem C2_storage_failure_eval :
    (processEcho exEnvNoKey exCfg exRec exOrcOk).outcome =
      RecOutcome.uploaded "ipfs_pending_0123456789abcdef0123456789abcdef" ∧
    (processEcho exEnvNoKey exCfg exRec exOrcOk).record.arweave_tx_id =
      Option.some "ipfs_pending_0123456789abcdef0123456789abcdef" ∧
    (processEcho exEnvNoKey exCfg exRec exOrcOk).record.moderation_status =
      Option.some "approved" ∧
    outKind (processEcho exEnvNoKey exCfg exRec exOrcOk).outcome ≠ OutKind.fail ∧
    (processEcho exEnv exCfg exRec
        { exOrcOk with s3 := S3Outcome.raise "backend down" }).outcome =
      RecOutcome.uploaded "ipfs_pending_0123456789abcdef0123456789abcdef" := by
  decide

/-- C10: a moderation response that parses as a JSON object but lacks the
is_safe key, or carries any falsy value for it, is treated as a rejection:
the record is flagged with the response's flag_reason (defaulting to
"Pre-Arweave check failed" when the key is absent), is_permanent is reset
to false, and no storage upload occurs. -/
theorem C10_missing_or_falsy_rejected (env : Env) (cfg : Config) (rec : EchoRecord)
    (orc : RecordOracle) (d : List (String × PyPrim))
    (hskip : cfg.skip_moderation = false)
    (hmod : orc.mod = ModCallOutcome.jsonOk (PyJson.dict d))
    (hfalsy : truthyPrim (pyGetD d "is_safe" (PyPrim.bool false)) = false)
    (hdb : orc.dbFlagOk = true) :
    (processEcho env cfg rec orc).outcome = RecOutcome.flagged ∧
    hasPut (processEcho env cfg rec orc).events = false ∧
    (processEcho env cfg rec orc).record.is_permanent = false ∧
    (processEcho env cfg rec orc).record.moderation_status = Option.some "flagged" ∧
    (processEcho env cfg rec orc).record.moderation_reason =
      Option.some (pyGetD d "flag_reason" (PyPrim.str "Pre-Arweave check failed")) ∧
    (processEcho env cfg rec orc).record.arweave_tx_id = rec.arweave_tx_id := by
  unfold processEcho
  rw [hmod]
  simp [hskip, call_moderation_agent, hfalsy, hdb, hasPut, isPut, markFlagged]

/-- Witness for C10 at a concrete empty response object: the record is
flagged with the default reason and nothing is uploaded. -/
theorem C10_missing_or_falsy_rejected_witness :
    (processEcho exEnv exCfg exRec
        { mod := ModCallOutcome.jsonOk (PyJson.dict []), s3 := S3Outcome.ok "QmX",
          dbFlagOk := true, dbUploadOk := true }).outcome = RecOutcome.flagged ∧
    (processEcho exEnv exCfg exRec
        { mod := ModCallOutcome.jsonOk (PyJson.dict []), s3 := S3Outcome.ok "QmX",
          dbFlagOk := true, dbUploadOk := true }).record.moderation_reason =
      Option.some (pyGetD [] "flag_reason" (PyPrim.str "Pre-Arweave check failed")) := by
  have h := C10_missing_or_falsy_rejected exEnv exCfg exRec
    { mod := ModCallOutcome.jsonOk (PyJson.dict []), s3 := S3Outcome.ok "QmX",
      dbFlagOk := true, dbUploadOk := true } [] rfl rfl rfl rfl
  exact ⟨h.1, h.2.2.2.2.1⟩

/-- C6: upload-envelope correctness.  Every storage put performed by the
per-record loop carries exactly the nine-field document
{type:"geo-echo", app:"wandern", version:"1.0", title, content,
content_type, created_at (isoformat string or null), user_id_hash (the
hash of the creator user identifier, so the raw identifier is not stored),
moderation:"approved"} and exactly the four tags {App-Name, Content-Type:
application/json, Type: geo-echo, Moderation-Status: approved}. -/
theorem C6_upload_envelope (env : Env) (cfg : Config) (rec : EchoRecord) (orc : RecordOracle)
    (p : ArweaveData) (t : List Tag)
    (hput : Event.putCall p t ∈ (processEcho env cfg rec orc).events) :
    p = { type := "geo-echo", app := "wandern", version := "1.0",
          title := rec.title, content := rec.content, content_type := rec.content_type,
          created_at := rec.created_at.map env.ext.isoformat,
          user_id_hash := toString (env.ext.pyHash rec.creator_user_id),
          moderation := "approved" } ∧
    t = [{ name := "App-Name", value := "Wandern" },
         { name := "Content-Type", value := "application/json" },
         { name := "Type", value := "geo-echo" },
         { name := "Moderation-Status", value := "approved" }] := by
  have key : p = buildArweaveData env.ext rec ∧ t = uploadTags := by
    unfold processEcho uploadStep at hput
    by_cases hsm : cfg.skip_moderation
    · by_cases hdu : orc.dbUploadOk <;> simp [hsm, hdu] at hput <;> exact hput
    · rcases hm : call_moderation_agent orc.mod with v | d | l
      · simp [hsm, hm] at hput
      · by_cases ht : truthyPrim (pyGetD d "is_safe" (PyPrim.bool false)) = true
        · by_cases hdu : orc.dbUploadOk <;> simp [hsm, hm, ht, hdu] at hput <;> exact hput
        · by_cases hdf : orc.dbFlagOk <;> simp [hsm, hm, ht, hdf] at hput
      · simp [hsm, hm] at hput
  refine ⟨?_, ?_⟩
  · rw [key.1]; rfl
  · rw [key.2]; rfl

/-- Witness for C6 at a concrete approved record: the performed put carries
the expected envelope and tags. -/
theorem C6_upload_envelope_witness :
    buildArweaveData exEnv.ext exRec =
      { type := "geo-echo", app := "wandern", version := "1.0",
        title := exRec.title, content := exRec.content, content_type := exRec.content_type,
        created_at := exRec.created_at.map exEnv.ext.isoformat,
        user_id_hash := toString (exEnv.ext.pyHash exRec.creator_user_id),
        moderation := "approved" } ∧
    uploadTags =
      [{ name := "App-Name", value := "Wandern" },
       { name := "Content-Type", value := "application/json" },
       { name := "Type", value := "geo-echo" },
       { name := "Moderation-Status", value := "approved" }] :=
  C6_upload_envelope exEnv exCfg exRec exOrcOk (buildArweaveData exEnv.ext exRec) uploadTags
    (by decide)

/-- C7: moderation-request content fallback.  When moderation is enabled,
the content field of the moderation request sent for a record equals the
record's content whenever that content is present and non-empty, and falls
back to the record's title (then to the empty string) only when the content
is null or empty. -/
theorem C7_moderation_content (env : Env) (cfg : Config) (rec : EchoRecord)
    (orc : RecordOracle) (hskip : cfg.skip_moderation = false) :
    (∀ s : String, rec.content = Option.some s → (s == "") = false →
      firstModReq (processEcho env cfg rec orc).events =
        Option.some { content := s, content_type := pyOrStr rec.content_type "text",
                      media_url := rec.media_url }) ∧
    ((rec.content = Option.none ∨ rec.content = Option.some "") →
      firstModReq (processEcho env cfg rec orc).events =
        Option.some { content := pyOrStr rec.title "",
                      content_type := pyOrStr rec.content_type "text",
                      media_url := rec.media_url }) := by
  have hfirst : firstModReq (processEcho env cfg rec orc).events =
      Option.some (buildModRequest rec) := by
    unfold processEcho uploadStep
    rcases hm : call_moderation_agent orc.mod with v | d | l
    · simp [hskip, hm, firstModReq]
    · by_cases ht : truthyPrim (pyGetD d "is_safe" (PyPrim.bool false)) = true
      · by_cases hdu : orc.dbUploadOk <;> simp [hskip, hm, ht, hdu, firstModReq]
      · by_cases hdf : orc.dbFlagOk <;> simp [hskip, hm, ht, hdf, firstModReq]
    · simp [hskip, hm, firstModReq]
  constructor
  · intro s hc hne
    rw [hfirst]
    unfold buildModRequest
    rw [hc]
    simp [pyOrStr, hne]
  · intro hc
    rw [hfirst]
    unfold buildModRequest
    rcases hc with hc | hc <;> rw [hc] <;> simp [pyOrStr]

/-- Witness for C7 at the spec's example record (content "Hello",
content_type "text", title null): the content sent is exactly "Hello". -/
theorem C7_moderation_content_witness :
    firstModReq (processEcho exEnv exCfg exRec exOrcOk).events =
      Option.some { content := "Hello", content_type := pyOrStr exRec.content_type "text",
                    media_url := exRec.media_url } ∧
    pyOrStr exRec.content_type "text" = "text" ∧ exRec.media_url = Option.none ∧
    exRec.title = Option.none :=
  ⟨(C7_moderation_content exEnv exCfg exRec exOrcOk rfl).1 "Hello" rfl (by decide),
   by decide, rfl, rfl⟩

/-- C8: test mode.  When test_mode is set, the handler's result is
independent of the record store contents (no selection, no update), and
the summary is processed=1, uploaded=1, failed=0, flagged=0 with tx_ids
holding exactly the one identifier produced for the synthetic record. -/
theorem C8_test_mode (env : Env) (cfg : Config) (orcs : Nat → RecordOracle)
    (db db2 : List EchoRecord) (ht : cfg.test_mode = true) :
    upload_batch env cfg orcs db = upload_batch env cfg orcs db2 ∧
    (upload_batch env cfg orcs db).processed = 1 ∧
    (upload_batch env cfg orcs db).uploaded = 1 ∧
    (upload_batch env cfg orcs db).failed = 0 ∧
    (upload_batch env cfg orcs db).flagged = 0 ∧
    (upload_batch env cfg orcs db).tx_ids =
      [upload_to_permanent_storage env.ext env.storage (orcs 0).s3
        (env.ext.jsonEncodeMock (mock_echo env.ext.nowIso))] := by
  unfold upload_batch
  simp [ht]

/-- Request flags for a test-mode invocation. -/
def exCfgTest : Config := { priority_only := false, test_mode := true, skip_moderation := false }

/-- Witness for C8: two different concrete databases give the identical
test-mode response with the expected summary. -/
theorem C8_test_mode_witness :
    upload_batch exEnv exCfgTest (fun _ => exOrcOk) [exRec] =
      upload_batch exEnv exCfgTest (fun _ => exOrcOk) [] ∧
    (upload_batch exEnv exCfgTest (fun _ => exOrcOk) [exRec]).processed = 1 ∧
    (upload_batch exEnv exCfgTest (fun _ => exOrcOk) [exRec]).tx_ids =
      [upload_to_permanent_storage exEnv.ext exEnv.storage exOrcOk.s3
        (exEnv.ext.jsonEncodeMock (mock_echo exEnv.ext.nowIso))] := by
  have h := C8_test_mode exEnv exCfgTest (fun _ => exOrcOk) [exRec] [] rfl
  exact ⟨h.1, h.2.1, h.2.2.2.2.2⟩

/-- C9: the storage client is total and never signals failure.  When the
secret key is unset, or when the S3 interaction raises, it returns the
pseudo-identifier "ipfs_pending_" followed by the first 32 characters of
the hex SHA-256 of the JSON-encoded payload; in every case it returns one
of the three identifier shapes (cid, "4ever_"-prefixed, or
"ipfs_pending_"-prefixed); byte-identical payloads receive the same
fallback identifier regardless of the backend outcome; and the
controller's per-record outcome classification (uploaded/flagged/failed)
is independent of the storage backend outcome, so a storage-backend
failure can never increment the failed counter. -/
theorem C9_storage_client_total (ext : Ext) (senv : StorageEnv) (s3 : S3Outcome)
    (payload : String) (env : Env) (cfg : Config) (rec : EchoRecord) (orc : RecordOracle)
    (s3b : S3Outcome) :
    (senv.secretKey = Option.none →
      upload_to_permanent_storage ext senv s3 payload =
        "ipfs_pending_" ++ (ext.sha256hex payload).take 32) ∧
    (∀ msg, s3 = S3Outcome.raise msg →
      upload_to_permanent_storage ext senv s3 payload =
        "ipfs_pending_" ++ (ext.sha256hex payload).take 32) ∧
    (upload_to_permanent_storage ext senv s3 payload =
        "ipfs_pending_" ++ (ext.sha256hex payload).take 32 ∨
      upload_to_permanent_storage ext senv s3 payload =
        "4ever_" ++ (ext.sha256hex payload).take 32 ∨
      ∃ cid, s3 = S3Outcome.ok cid ∧ upload_to_permanent_storage ext senv s3 payload = cid) ∧
    (∀ q : String, ext.sha256hex q = ext.sha256hex payload →
      upload_to_permanent_storage ext { secretKey := Option.none } s3 q =
        upload_to_permanent_storage ext { secretKey := Option.none } s3b payload) ∧
    outKind (processEcho env cfg rec { orc with s3 := s3b }).outcome =
      outKind (processEcho env cfg rec orc).outcome := by
  refine ⟨?_, ?_, ?_, ?_, ?_⟩
  · intro h
    unfold upload_to_permanent_storage
    rw [h]
  · intro msg h
    subst h
    unfold upload_to_permanent_storage
    rcases hsk : senv.secretKey with _ | k <;> rfl
  · unfold upload_to_permanent_storage
    rcases hsk : senv.secretKey with _ | k
    · left; rfl
    · rcases hs3 : s3 with cid | msg
      · by_cases hq : (pyStartsWith cid "Qm" || pyStartsWith cid "bafy") = true
        · right; right; exact ⟨cid, rfl, by simp [hq]⟩
        · right; left; simp [hq]
      · left; rfl
  · intro q hq
    unfold upload_to_permanent_storage
    rw [hq]
  · unfold processEcho uploadStep
    by_cases hsm : cfg.skip_moderation
    · by_cases hdu : orc.dbUploadOk <;> simp [hsm, hdu, outKind]
    · rcases hm : call_moderation_agent orc.mod with v | d | l
      · simp [hsm, hm, outKind]
      · by_cases ht : truthyPrim (pyGetD d "is_safe" (PyPrim.bool false)) = true
        · by_cases hdu : orc.dbUploadOk <;> simp [hsm, hm, ht, hdu, outKind]
        · by_cases hdf : orc.dbFlagOk <;> simp [hsm, hm, ht, hdf, outKind]
      · simp [hsm, hm, outKind]

/-- Witness for C9 at concrete inputs: the fallback identifier for an unset
secret key and for a raising backend, and outcome-kind invariance between a
succeeding and a raising backend. -/
theorem C9_storage_client_total_witness :
    upload_to_permanent_storage exExt { secretKey := Option.none } (S3Outcome.ok "QmX") "p" =
      "ipfs_pending_" ++ (exExt.sha256hex "p").take 32 ∧
    upload_to_permanent_storage exExt exEnv.storage (S3Outcome.raise "boom") "p" =
      "ipfs_pending_" ++ (exExt.sha256hex "p").take 32 ∧
    outKind (processEcho exEnv exCfg exRec
        { exOrcOk with s3 := S3Outcome.raise "boom" }).outcome =
      outKind (processEcho exEnv exCfg exRec exOrcOk).outcome := by
  have h := C9_storage_client_total exExt { secretKey := Option.none } (S3Outcome.ok "QmX")
    "p" exEnv exCfg exRec exOrcOk (S3Outcome.raise "boom")
  have h2 := C9_storage_client_total exExt exEnv.storage (S3Outcome.raise "boom")
    "p" exEnv exCfg exRec exOrcOk (S3Outcome.raise "boom")
  exact ⟨h.1 rfl, h2.2.1 "boom" rfl, h.2.2.2.2⟩

end Wandern
